import Mathlib

/-!
Verification of the otter ideal simulator and event-classification layer.

The definitions below are a shallow embedding of:
  * `otter/simulator/ideal_simulator.py` (`TaskScheduler.descend`,
    `TaskScheduler.branch_task`, `TaskScheduler.leaf_task`,
    `TaskScheduler.simulate_phase`),
  * `otter/core/event_model/event_model.py` (`BaseEventModel.generate_chunks`),
  * `otter/core/event_model/omp_event_model.py` (classifier predicates),
  * `otter/core/event_model/task_graph_event_model.py` (classifier predicates).

Stateful Python code is embedded as explicit state passing in the `Except`
monad; the callback sinks (critical-task, task-action, task-suspend-meta) are
embedded as lists accumulated in an `Output` record; Python `assert`,
`ValueError` (from `max()` over an empty sequence), `KeyError` (dict lookup)
and `RuntimeError` become `Except.error` values.  The recursion of `descend`
over the task tree is embedded with an explicit fuel parameter (`Nat`), which
is the only deviation from the source; `SimError.outOfFuel` is unreachable
whenever the fuel exceeds the nesting depth of the concrete task tree.
-/

/-- Embedding of `TaskAction` from `otter/definitions.py` (CREATE=1, START=2, END=3,
SUSPEND=4, RESUME=5). -/
inductive TaskAction where
  | CREATE
  | START
  | END
  | SUSPEND
  | RESUME
deriving DecidableEq, Repr

/-- Embedding of `TaskSyncMode` from `otter/definitions.py` (CHILDREN=0, DESCENDANTS=1,
YIELD=2). -/
inductive TaskSyncMode where
  | CHILDREN
  | DESCENDANTS
  | YIELD
deriving DecidableEq, Repr

/-- The integer `.value` of a `TaskSyncMode` member, as passed to the
task-suspend-meta callback in `branch_task` and `simulate_phase`. -/
def TaskSyncMode.value : TaskSyncMode → Nat
  | .CHILDREN => 0
  | .DESCENDANTS => 1
  | .YIELD => 2

/-- Embedding of `Timings` from `ideal_simulator.py`: the idealized re-execution result for
one task.  Its `__gt__` compares by `end_ts` only. -/
structure Timings where
  task : Nat
  start_ts : Int
  duration : Int
  end_ts : Int
deriving DecidableEq, Repr

/-- Errors raised by the embedded simulator.  `outOfFuel` is an artifact of
the fuel-based embedding of the recursion and corresponds to no Python
behaviour. -/
inductive SimError where
  | assertionError (msg : String)
  | valueError (msg : String)
  | keyError
  | typeError (msg : String)
  | runtimeError (msg : String)
  | outOfFuel
deriving DecidableEq, Repr

/-- Embedding of `TaskTimingData = Dict[TaskID, Timings]`, embedded as an insertion-ordered
association list (Python dicts preserve insertion order, which matters for
`max(descendants_timing_data.values())`). -/
abbrev TimingDict := List (Nat × Timings)

/-- Python `d[k] = v`: replace in place if the key is present, else append. -/
def dictSet (d : TimingDict) (k : Nat) (v : Timings) : TimingDict :=
  if (List.any d fun p => p.1 == k) then
    List.map (fun p => if p.1 == k then (k, v) else p) d
  else
    List.append d [(k, v)]

/-- Python `d.update(d2)`. -/
def dictUpdate (d d2 : TimingDict) : TimingDict :=
  List.foldl (fun acc p => dictSet acc p.1 p.2) d d2

/-- Python `d[k]` as an `Option`. -/
def dictGet (d : TimingDict) (k : Nat) : Option Timings :=
  match List.find? (fun p => p.1 == k) d with
  | some p => some p.2
  | none => none

/-- Python `d[k]`, raising `KeyError` when the key is absent. -/
def dictGetE (d : TimingDict) (k : Nat) : Except SimError Timings :=
  match dictGet d k with
  | some v => Except.ok v
  | none => Except.error SimError.keyError

/-- Python `d.values()`. -/
def dictValues (d : TimingDict) : List Timings :=
  List.map (fun p => p.2) d

/-- Python `max` over `Timings` values: raises `ValueError` on an empty
sequence, otherwise keeps the current maximum and replaces it whenever a later
item compares greater (`Timings.__gt__`, i.e. strictly larger `end_ts`); on
ties the earliest item wins. -/
def pyMax : List Timings → Except SimError Timings
  | [] => Except.error (SimError.valueError "max() arg is an empty sequence")
  | t :: ts =>
    Except.ok (List.foldl (fun acc x => if x.end_ts > acc.end_ts then x else acc) t ts)

/-- Lookup in a suspend-metadata map built by Python `dict(...)` from a list of
`(timestamp, mode)` pairs: the last binding of a key wins. -/
def metaLookup (meta : List (Int × TaskSyncMode)) (ts : Int) : Option TaskSyncMode :=
  List.lookup ts (List.reverse meta)

/-- The three callback sinks of the simulator, embedded as accumulated lists:
`crit` records `crit_task_callback(task, sequence, critical_task)` calls,
`actions` records `task_action_callback(task, action, timestamp, ...)` calls
(the source-location, cpu and tid arguments carry no control flow and are
dropped), and `suspendMeta` records
`task_suspend_callback(task, timestamp, False, mode.value)` calls. -/
structure Output where
  crit : List (Nat × Nat × Nat) := []
  actions : List (Nat × TaskAction × Int) := []
  suspendMeta : List (Nat × Int × Nat) := []
deriving DecidableEq, Repr

mutual
/-- A task row as consumed by the simulator (`otter/db/types.py` `Task`
joined with what the reader interface returns for it): its id, recorded child
count (`task.children`), native `create_ts`/`start_ts`/`end_ts`, its ordered
`TaskSchedulingState` list and its suspend-metadata map.  The reader calls
`get_task_scheduling_states`, `get_task_suspend_meta` and
`get_children_created_between` are embedded by storing, inside each scheduling
state, the child tasks created during that state. -/
inductive Otter.Task where
  | mk (id : Nat) (children : Nat) (create_ts : Int) (start_ts : Int) (end_ts : Int)
       (states : List SchedState) (suspendMeta : List (Int × TaskSyncMode)) : Otter.Task

/-- A `TaskSchedulingState` row (`otter/db/types.py`): the interval between two
consecutive recorded actions of one task, together with the tasks created
during it (the result of `get_children_created_between(task, start_ts,
end_ts)` joined with `get_tasks`). -/
inductive SchedState where
  | mk (action_start : TaskAction) (action_end : TaskAction)
       (start_ts : Int) (end_ts : Int) (duration : Int)
       (childrenCreated : List Otter.Task) : SchedState
end

def Otter.Task.id : Otter.Task → Nat
  | .mk i _ _ _ _ _ _ => i

def Otter.Task.children : Otter.Task → Nat
  | .mk _ c _ _ _ _ _ => c

def Otter.Task.create_ts : Otter.Task → Int
  | .mk _ _ c _ _ _ _ => c

def Otter.Task.start_ts : Otter.Task → Int
  | .mk _ _ _ s _ _ _ => s

def Otter.Task.end_ts : Otter.Task → Int
  | .mk _ _ _ _ e _ _ => e

def Otter.Task.states : Otter.Task → List SchedState
  | .mk _ _ _ _ _ s _ => s

def Otter.Task.suspendMeta : Otter.Task → List (Int × TaskSyncMode)
  | .mk _ _ _ _ _ _ m => m

def SchedState.action_start : SchedState → TaskAction
  | .mk a _ _ _ _ _ => a

def SchedState.action_end : SchedState → TaskAction
  | .mk _ a _ _ _ _ => a

def SchedState.start_ts : SchedState → Int
  | .mk _ _ s _ _ _ => s

def SchedState.end_ts : SchedState → Int
  | .mk _ _ _ e _ _ => e

def SchedState.duration : SchedState → Int
  | .mk _ _ _ _ d _ => d

def SchedState.childrenCreated : SchedState → List Otter.Task
  | .mk _ _ _ _ _ c => c

/-- Embedding of `TaskSchedulingState.is_active`: `action_start in (START, RESUME)`. -/
def SchedState.is_active (s : SchedState) : Bool :=
  s.action_start == TaskAction.START || s.action_start == TaskAction.RESUME

/-- The mutable loop state of `TaskScheduler.branch_task`: the current global
timestamp, the two duration accumulators, `children_visited`, the
`barrier_counter`, `children_pending` and `descendants_timing_data`, plus the
callback output accumulated so far. -/
structure BSt where
  gts : Int
  exec_dt : Int
  susp_dt : Int
  visited : Nat
  barrier : Nat
  pending : List Nat
  dtd : TimingDict
  out : Output
deriving DecidableEq, Repr

/-- The type of the recursive `descend` call, abstracted so that the
per-state processing of `branch_task` can be stated for any descent
function. -/
abbrev DescendFn : Type :=
  Otter.Task → Int → TimingDict → Output → Except SimError (Int × TimingDict × Output)

/-- The children loop of an active state in `branch_task`: for each child, in
order, compute `child_crt_dt = child.create_ts - state.start_ts`, run
`assert child_crt_dt > 0, "child_crt_dt must not be negative"`, descend into
the child at `global_start_ts + child_crt_dt` (extending the local timing
data), increment `children_visited` and merge the local timing data into
`descendants_timing_data`. -/
def branchChildren (dFn : DescendFn) (state_start_ts : Int) (gts : Int) :
    List Otter.Task → TimingDict → TimingDict → Output → Nat →
    Except SimError (TimingDict × TimingDict × Output × Nat)
  | [], localTd, dtd, out, visited => Except.ok (localTd, dtd, out, visited)
  | c :: cs, localTd, dtd, out, visited =>
    let child_crt_dt := c.create_ts - state_start_ts
    if child_crt_dt > 0 then
      match dFn c (gts + child_crt_dt) localTd out with
      | Except.error e => Except.error e
      | Except.ok (_, localTd2, out2) =>
        branchChildren dFn state_start_ts gts cs localTd2 (dictUpdate dtd localTd2) out2
          (visited + 1)
    else
      Except.error (SimError.assertionError "child_crt_dt must not be negative")

/-- Resolution of a SUSPEND state in `branch_task` for a given sync mode:
returns the barrier duration, the new critical-task list, the new barrier
counter and the new pending-children list.  CHILDREN compares
`descendants_timing_data[child] for child in children_pending` (KeyError on a
missing child, ValueError when `children_pending` is empty) and records no
critical task; DESCENDANTS compares the full `descendants_timing_data.values()`
and records the latest descendant as critical only when its `end_ts` is at or
after the current global time; YIELD does nothing. -/
def resolveBranchSuspend (tid : Nat) (mode : TaskSyncMode) (st : BSt) :
    Except SimError (Int × List (Nat × Nat × Nat) × Nat × List Nat) :=
  match mode with
  | TaskSyncMode.CHILDREN =>
    match List.mapM (dictGetE st.dtd) st.pending with
    | Except.error e => Except.error e
    | Except.ok ts =>
      match pyMax ts with
      | Except.error e => Except.error e
      | Except.ok latest =>
        let bd := if latest.end_ts ≥ st.gts then latest.end_ts - st.gts else 0
        Except.ok (bd, st.out.crit, st.barrier, [])
  | TaskSyncMode.DESCENDANTS =>
    match pyMax (dictValues st.dtd) with
    | Except.error e => Except.error e
    | Except.ok latest =>
      if latest.end_ts ≥ st.gts then
        Except.ok (latest.end_ts - st.gts,
          List.append st.out.crit [(tid, st.barrier, latest.task)], st.barrier + 1, [])
      else
        Except.ok (0, st.out.crit, st.barrier, [])
  | TaskSyncMode.YIELD => Except.ok (0, st.out.crit, st.barrier, st.pending)

/-- One iteration of the state loop of `TaskScheduler.branch_task`.  Active
states accumulate native execution time, extend `children_pending`, descend
into the children created during the state and advance global time by the
state's duration.  SUSPEND-starting states look up the sync mode recorded at
`state.start_ts` (KeyError when absent), resolve the barrier, emit the
suspend-meta record and the simulated SUSPEND/RESUME action pair, and advance
global time by the barrier duration.  CREATE-starting states are skipped; any
other state is only logged. -/
def branchStep (dFn : DescendFn) (tid : Nat) (meta : List (Int × TaskSyncMode))
    (st : BSt) (s : SchedState) : Except SimError BSt :=
  if s.is_active then
    match branchChildren dFn s.start_ts st.gts s.childrenCreated [] st.dtd st.out st.visited with
    | Except.error e => Except.error e
    | Except.ok (_, dtd2, out2, visited2) =>
      Except.ok { st with
        gts := st.gts + s.duration,
        exec_dt := st.exec_dt + s.duration,
        visited := visited2,
        pending := List.append st.pending (List.map Otter.Task.id s.childrenCreated),
        dtd := dtd2,
        out := out2 }
  else if s.action_start == TaskAction.SUSPEND then
    match metaLookup meta s.start_ts with
    | none => Except.error SimError.keyError
    | some mode =>
      match resolveBranchSuspend tid mode st with
      | Except.error e => Except.error e
      | Except.ok (bd, crit2, barrier2, pending2) =>
        Except.ok { st with
          gts := st.gts + bd,
          susp_dt := st.susp_dt + bd,
          pending := pending2,
          barrier := barrier2,
          out :=
            { crit := crit2,
              actions := List.append st.out.actions
                [(tid, TaskAction.SUSPEND, st.gts), (tid, TaskAction.RESUME, st.gts + bd)],
              suspendMeta := List.append st.out.suspendMeta [(tid, st.gts, mode.value)] } }
  else
    Except.ok st

/-- The state loop of `TaskScheduler.branch_task`. -/
def branchStates (dFn : DescendFn) (tid : Nat) (meta : List (Int × TaskSyncMode)) :
    List SchedState → BSt → Except SimError BSt
  | [], st => Except.ok st
  | s :: rest, st =>
    match branchStep dFn tid meta st s with
    | Except.error e => Except.error e
    | Except.ok st2 => branchStates dFn tid meta rest st2

/-- Embedding of `TaskScheduler.branch_task`: process the task's scheduling states starting
from empty pending children and empty descendant timing data, merge the
descendant timing data into the caller's map, run
`assert children_visited == task.children` and return the taskwait-inclusive
duration `execution_native_dt + suspended_ideal_dt`. -/
def branch_task (dFn : DescendFn) (t : Otter.Task) (gts : Int) (td : TimingDict) (out : Output) :
    Except SimError (Int × TimingDict × Output) :=
  match branchStates dFn t.id t.suspendMeta t.states
      { gts := gts, exec_dt := 0, susp_dt := 0, visited := 0, barrier := 0,
        pending := [], dtd := [], out := out } with
  | Except.error e => Except.error e
  | Except.ok st =>
    let td2 := dictUpdate td st.dtd
    if st.visited = t.children then
      Except.ok (st.exec_dt + st.susp_dt, td2, st.out)
    else
      Except.error (SimError.assertionError "children_visited == task.children")

/-- Embedding of `TaskScheduler.leaf_task`: the duration of a leaf task is its native
`end_ts - start_ts`. -/
def leaf_task (t : Otter.Task) : Int :=
  t.end_ts - t.start_ts

/-- Embedding of `TaskScheduler.descend`, with explicit fuel for the recursion over the
task tree: emit simulated CREATE and START at the simulated start time, take
the duration from `branch_task` when the recorded child count is positive and
from `leaf_task` otherwise, record the task's `Timings` in the caller's timing
map and emit simulated END. -/
def descend : Nat → Otter.Task → Int → TimingDict → Output →
    Except SimError (Int × TimingDict × Output)
  | 0, _, _, _, _ => Except.error SimError.outOfFuel
  | gas + 1, t, gts, td, out =>
    let out1 := { out with
      actions := List.append out.actions
        [(t.id, TaskAction.CREATE, gts), (t.id, TaskAction.START, gts)] }
    match (if t.children > 0 then
             branch_task (fun c g d o => descend gas c g d o) t gts td out1
           else
             Except.ok (leaf_task t, td, out1)) with
    | Except.error e => Except.error e
    | Except.ok (duration, td2, out2) =>
      Except.ok (duration,
        dictSet td2 t.id { task := t.id, start_ts := gts, duration := duration,
                           end_ts := gts + duration },
        { out2 with
          actions := List.append out2.actions [(t.id, TaskAction.END, gts + duration)] })

/-- The mutable loop state of `TaskScheduler.simulate_phase`. -/
structure PhSt where
  gts : Int
  visited : Nat
  barrier : Nat
  out : Output
deriving DecidableEq, Repr

/-- The children loop of an active state in `simulate_phase`: every child is
descended at the current global time (no creation offset), against a timing
map that is fresh for each state. -/
def phaseChildren (dFn : DescendFn) :
    List Otter.Task → Int → TimingDict → Output → Nat → Except SimError (TimingDict × Output × Nat)
  | [], _, td, out, v => Except.ok (td, out, v)
  | c :: cs, gts, td, out, v =>
    match dFn c gts td out with
    | Except.error e => Except.error e
    | Except.ok (_, td2, out2) => phaseChildren dFn cs gts td2 out2 (v + 1)

/-- One iteration of the state loop of `TaskScheduler.simulate_phase`.  For an
active state: descend into the children created during it, then if the state
ends in SUSPEND look up the mode recorded at `state.end_ts`, emit the
suspend-meta record, and when children exist resolve the barrier (advancing
global time to the maximum of the current time and the latest relevant
`end_ts`, and recording the critical task); with no children, advance by the
state's duration.  A mode other than CHILDREN/DESCENDANTS with children
present is only logged.  A state ending in END asserts there are no
unsynchronised children; any other end raises RuntimeError.  Non-active states
are skipped. -/
def phaseStep (dFn : DescendFn) (pid : Nat) (meta : List (Int × TaskSyncMode))
    (st : PhSt) (s : SchedState) : Except SimError PhSt :=
  if s.is_active then
    match phaseChildren dFn s.childrenCreated st.gts [] st.out st.visited with
    | Except.error e => Except.error e
    | Except.ok (td, out2, visited2) =>
      if s.action_end == TaskAction.SUSPEND then
        match metaLookup meta s.end_ts with
        | none => Except.error SimError.keyError
        | some mode =>
          let out3 := { out2 with
            suspendMeta := List.append out2.suspendMeta [(pid, st.gts, mode.value)] }
          if s.childrenCreated.isEmpty then
            Except.ok { st with gts := st.gts + s.duration, visited := visited2, out := out3 }
          else
            match mode with
            | TaskSyncMode.CHILDREN =>
              match List.mapM (dictGetE td) (List.map Otter.Task.id s.childrenCreated) with
              | Except.error e => Except.error e
              | Except.ok ts =>
                match pyMax ts with
                | Except.error e => Except.error e
                | Except.ok latest =>
                  Except.ok { st with
                    gts := max st.gts latest.end_ts,
                    visited := visited2,
                    barrier := st.barrier + 1,
                    out := { out3 with
                      crit := List.append out3.crit [(pid, st.barrier, latest.task)] } }
            | TaskSyncMode.DESCENDANTS =>
              match pyMax (dictValues td) with
              | Except.error e => Except.error e
              | Except.ok latest =>
                Except.ok { st with
                  gts := max st.gts latest.end_ts,
                  visited := visited2,
                  barrier := st.barrier + 1,
                  out := { out3 with
                    crit := List.append out3.crit [(pid, st.barrier, latest.task)] } }
            | TaskSyncMode.YIELD =>
              Except.ok { st with visited := visited2, out := out3 }
      else if s.action_end == TaskAction.END then
        if s.childrenCreated.isEmpty then
          Except.ok { st with visited := visited2, out := out2 }
        else
          Except.error (SimError.assertionError
            "there seem to be unsynchronised children at the end of an active part of a phase")
      else
        Except.error (SimError.runtimeError "invalid end to active state in phase task")
  else
    Except.ok st

/-- The state loop of `TaskScheduler.simulate_phase`. -/
def phaseStates (dFn : DescendFn) (pid : Nat) (meta : List (Int × TaskSyncMode)) :
    List SchedState → PhSt → Except SimError PhSt
  | [], st => Except.ok st
  | s :: rest, st =>
    match phaseStep dFn pid meta st s with
    | Except.error e => Except.error e
    | Except.ok st2 => phaseStates dFn pid meta rest st2

/-- Embedding of `TaskScheduler.simulate_phase`: process the phase task's scheduling
states, run `assert children_visited == phase.children` and return the final
global time. -/
def simulate_phase (dFn : DescendFn) (gts : Int) (phase : Otter.Task) (out : Output) :
    Except SimError (Int × Output) :=
  match phaseStates dFn phase.id phase.suspendMeta phase.states
      { gts := gts, visited := 0, barrier := 0, out := out } with
  | Except.error e => Except.error e
  | Except.ok st =>
    if st.visited = phase.children then
      Except.ok (st.gts, st.out)
    else
      Except.error (SimError.assertionError "children_visited == phase.children")

/-- Embedding of `EventType` from `otter/definitions.py`. -/
inductive EventType where
  | thread_begin
  | thread_end
  | parallel_begin
  | parallel_end
  | workshare_begin
  | workshare_end
  | sync_begin
  | sync_end
  | task_create
  | task_schedule
  | task_enter
  | task_leave
  | task_switch
  | master_begin
  | master_end
  | phase_begin
  | phase_end
deriving DecidableEq, Repr

/-- Embedding of `TaskStatus` from `otter/definitions.py`. -/
inductive TaskStatus where
  | complete
  | taskyield
  | cancel
  | detach
  | early_fulfil
  | late_fulfil
  | switch
deriving DecidableEq, Repr

/-- Embedding of `NullTaskID` from `otter/definitions.py`. -/
def NullTaskID : Nat := 18446744073709551615

/-- A trace event as consumed by the classifiers and by
`BaseEventModel.generate_chunks` — the attributes those code paths read.
`sync_descendant_tasks` carries the integer value of a `TaskSyncType`
(children=0, descendants=1). -/
structure Event where
  event_type : EventType
  unique_id : Nat := 0
  encountering_task_id : Nat := 0
  parent_task_id : Nat := 0
  next_task_id : Nat := 0
  prior_task_status : TaskStatus := TaskStatus.switch
  time : Int := 0
  sync_descendant_tasks : Nat := 0
  task_label : String := ""
deriving DecidableEq, Repr

/-- Embedding of `OMPEventModel.is_task_enter_event`. -/
def OMPEventModel.is_task_enter_event (e : Event) : Bool :=
  e.event_type == EventType.task_enter

/-- Embedding of `OMPEventModel.is_task_leave_event`. -/
def OMPEventModel.is_task_leave_event (e : Event) : Bool :=
  e.event_type == EventType.task_leave

/-- Embedding of `OMPEventModel.is_task_switch_event`. -/
def OMPEventModel.is_task_switch_event (e : Event) : Bool :=
  e.event_type == EventType.task_switch

/-- Embedding of `OMPEventModel.is_task_register_event`: task-enter or task-create. -/
def OMPEventModel.is_task_register_event (e : Event) : Bool :=
  e.event_type == EventType.task_enter || e.event_type == EventType.task_create

/-- Embedding of `OMPEventModel.is_task_complete_event`: a task-leave event, or a
task-switch event whose `prior_task_status` is `complete` or `cancel`. -/
def OMPEventModel.is_task_complete_event (e : Event) : Bool :=
  OMPEventModel.is_task_leave_event e ||
    (OMPEventModel.is_task_switch_event e &&
      (e.prior_task_status == TaskStatus.complete ||
        e.prior_task_status == TaskStatus.cancel))

/-- Embedding of `OMPEventModel.is_update_task_start_ts_event`: a task-enter event, or a
task-switch event that is NOT a task-complete event. -/
def OMPEventModel.is_update_task_start_ts_event (e : Event) : Bool :=
  OMPEventModel.is_task_enter_event e ||
    (OMPEventModel.is_task_switch_event e && !(OMPEventModel.is_task_complete_event e))

/-- Embedding of `OMPEventModel.get_task_entered`: `unique_id` for task-enter,
`next_task_id` for task-switch. -/
def OMPEventModel.get_task_entered (e : Event) : Nat :=
  if OMPEventModel.is_task_enter_event e then e.unique_id else e.next_task_id

/-- Embedding of `OMPEventModel.get_task_completed`: `unique_id` for task-leave,
`encountering_task_id` for task-switch. -/
def OMPEventModel.get_task_completed (e : Event) : Nat :=
  if OMPEventModel.is_task_leave_event e then e.unique_id else e.encountering_task_id

/-- The projection of `otter/core/tasks.py` `TaskData` to the fields that
`generate_chunks` reads back (`task.id`, `task.parent_id`,
`task.task_label`).  The source dataclass declares six fields with no
defaults (`id, parent_id, task_flavour, task_label, crt_ts, init_location`),
which matters for `TaskGraphEventModel.get_task_registered_data` below. -/
structure TaskData where
  id : Nat
  parent_id : Nat
  task_label : String
deriving DecidableEq, Repr

/-- Embedding of `TaskGraphEventModel.event_completes_chunk`: task-leave events. -/
def TaskGraphEventModel.event_completes_chunk (e : Event) : Bool :=
  e.event_type == EventType.task_leave

/-- Embedding of `TaskGraphEventModel.event_updates_chunk`: task-enter events. -/
def TaskGraphEventModel.event_updates_chunk (e : Event) : Bool :=
  e.event_type == EventType.task_enter

/-- Embedding of `TaskGraphEventModel.event_skips_chunk_update`: the task-create event of
the root task (`unique_id == 0`) is not added to any chunk. -/
def TaskGraphEventModel.event_skips_chunk_update (e : Event) : Bool :=
  e.event_type == EventType.task_create && e.unique_id == 0

/-- Embedding of `TaskGraphEventModel.is_task_register_event`: every task-create event. -/
def TaskGraphEventModel.is_task_register_event (e : Event) : Bool :=
  e.event_type == EventType.task_create

/-- Embedding of `TaskGraphEventModel.is_update_task_start_ts_event`: task-enter events. -/
def TaskGraphEventModel.is_update_task_start_ts_event (e : Event) : Bool :=
  e.event_type == EventType.task_enter

/-- Embedding of `TaskGraphEventModel.is_task_complete_event`: task-leave events. -/
def TaskGraphEventModel.is_task_complete_event (e : Event) : Bool :=
  e.event_type == EventType.task_leave

/-- Embedding of `TaskGraphEventModel.is_task_suspend_event`: sync-begin events. -/
def TaskGraphEventModel.is_task_suspend_event (e : Event) : Bool :=
  e.event_type == EventType.sync_begin

/-- Embedding of `TaskGraphEventModel.is_task_resume_event`: sync-end events. -/
def TaskGraphEventModel.is_task_resume_event (e : Event) : Bool :=
  e.event_type == EventType.sync_end

/-- Embedding of `TaskGraphEventModel.get_task_entered`. -/
def TaskGraphEventModel.get_task_entered (e : Event) : Nat :=
  e.encountering_task_id

/-- Embedding of `TaskGraphEventModel.get_task_completed`. -/
def TaskGraphEventModel.get_task_completed (e : Event) : Nat :=
  e.encountering_task_id

/-- Embedding of `TaskGraphEventModel.get_task_registered_data`: the source
constructs `TaskData(event.unique_id, event.encountering_task_id,
event.task_label, event.time, SourceLocation(...))` — five positional
arguments — but the `TaskData` dataclass declares six fields with no
defaults, so every call raises
`TypeError: __init__() missing 1 required positional argument: init_location`
before any record can be built.  The embedding therefore returns that
TypeError for every event. -/
def TaskGraphEventModel.get_task_registered_data (_ : Event) : Except SimError TaskData :=
  Except.error
    (SimError.typeError "missing 1 required positional argument: init_location")

/-- The abstract-method interface of `BaseEventModel` that
`generate_chunks` consumes, one field per query.  `has_update_chunk_handler`
embeds `get_update_chunk_handler(event) is not None` (lookup of
`chunk_update_handlers` with key `(None, event.event_type)`). -/
structure EventModelIface where
  event_completes_chunk : Event → Bool
  event_updates_chunk : Event → Bool
  event_skips_chunk_update : Event → Bool
  has_update_chunk_handler : Event → Bool
  is_task_register_event : Event → Bool
  is_update_task_start_ts_event : Event → Bool
  is_task_complete_event : Event → Bool
  is_task_suspend_event : Event → Bool
  is_task_resume_event : Event → Bool
  get_task_entered : Event → Nat
  get_task_completed : Event → Nat
  get_task_registered_data : Event → Except SimError TaskData

/-- The `EventModelIface` instance assembled from the `TaskGraphEventModel`
predicates.  No `@update_chunks_on` registration exists for this model, so its
`chunk_update_handlers` dict is empty and `has_update_chunk_handler` is
constantly false. -/
def taskGraphModel : EventModelIface where
  event_completes_chunk := TaskGraphEventModel.event_completes_chunk
  event_updates_chunk := TaskGraphEventModel.event_updates_chunk
  event_skips_chunk_update := TaskGraphEventModel.event_skips_chunk_update
  has_update_chunk_handler := fun _ => false
  is_task_register_event := TaskGraphEventModel.is_task_register_event
  is_update_task_start_ts_event := TaskGraphEventModel.is_update_task_start_ts_event
  is_task_complete_event := TaskGraphEventModel.is_task_complete_event
  is_task_suspend_event := TaskGraphEventModel.is_task_suspend_event
  is_task_resume_event := TaskGraphEventModel.is_task_resume_event
  get_task_entered := TaskGraphEventModel.get_task_entered
  get_task_completed := TaskGraphEventModel.get_task_completed
  get_task_registered_data := TaskGraphEventModel.get_task_registered_data

/-- Which of the four chunk-update paths of `generate_chunks` an event took. -/
inductive ChunkOp where
  | handlerCompleted
  | handlerUpdated
  | skipped
  | defaultAppend (task : Nat)
deriving DecidableEq, Repr

/-- The loop state of `BaseEventModel.generate_chunks`: the enumeration
counter `k` (`total_events` is assigned `k` on every iteration), `num_chunks`,
the events processed so far in order, the chunk path taken for each, and the
records emitted to the three sinks (task-metadata, task-action,
task-suspend-metadata). -/
structure DriverSt where
  k : Nat := 0
  num_chunks : Nat := 0
  processed : List Event := []
  chunkOps : List ChunkOp := []
  taskMeta : List (Nat × Option Nat × String) := []
  taskActions : List (Nat × TaskAction × Int) := []
  suspendMetaRecs : List (Nat × Int × Bool) := []
deriving DecidableEq, Repr

/-- The chunk-update dispatch at the top of the event loop of
`BaseEventModel.generate_chunks`: completes-chunk and updates-chunk events
run `assert handler is not None` before invoking the handler (and only
completes-chunk events increment `num_chunks`); skip events do nothing; all
other events append to the encountering task's chunk. -/
def chunkDispatch (m : EventModelIface) (num_chunks : Nat) (ev : Event) :
    Except SimError (Nat × ChunkOp) :=
  if m.event_completes_chunk ev then
    if m.has_update_chunk_handler ev then
      Except.ok (num_chunks + 1, ChunkOp.handlerCompleted)
    else
      Except.error (SimError.assertionError "handler is not None")
  else if m.event_updates_chunk ev then
    if m.has_update_chunk_handler ev then
      Except.ok (num_chunks, ChunkOp.handlerUpdated)
    else
      Except.error (SimError.assertionError "handler is not None")
  else if m.event_skips_chunk_update ev then
    Except.ok (num_chunks, ChunkOp.skipped)
  else
    Except.ok (num_chunks, ChunkOp.defaultAppend ev.encountering_task_id)

/-- The task-registration block of the event loop: for a register event,
call `get_task_registered_data` (for the TASKGRAPH model this raises
TypeError, aborting the iteration before any record is emitted) and emit the
task-metadata record (parent absent when it equals `NullTaskID`) and the
CREATE action; other events emit nothing here. -/
def registerRecords (m : EventModelIface) (ev : Event)
    (taskMeta : List (Nat × Option Nat × String))
    (taskActions : List (Nat × TaskAction × Int)) :
    Except SimError
      (List (Nat × Option Nat × String) × List (Nat × TaskAction × Int)) :=
  if m.is_task_register_event ev then
    match m.get_task_registered_data ev with
    | Except.error e => Except.error e
    | Except.ok td =>
      Except.ok
        (List.append taskMeta
          [(td.id, if td.parent_id = NullTaskID then none else some td.parent_id,
            td.task_label)],
         List.append taskActions [(td.id, TaskAction.CREATE, ev.time)])
  else
    Except.ok (taskMeta, taskActions)

/-- One iteration of the event loop of `BaseEventModel.generate_chunks`:
dispatch the chunk update, run the task-registration block, then: an
update-task-start event emits START; a task-complete event emits END; a
task-suspend event emits SUSPEND plus a suspend-metadata record
(descendant-sync flag from
`sync_descendant_tasks == TaskSyncType.descendants`), else a task-resume
event emits RESUME. -/
def driverStep (m : EventModelIface) (st : DriverSt) (ev : Event) : Except SimError DriverSt :=
  match chunkDispatch m st.num_chunks ev with
  | Except.error e => Except.error e
  | Except.ok (nc, op) =>
    match registerRecords m ev st.taskMeta st.taskActions with
    | Except.error e => Except.error e
    | Except.ok (meta2, acts1) =>
      let acts2 := if m.is_update_task_start_ts_event ev then
          List.append acts1 [(m.get_task_entered ev, TaskAction.START, ev.time)]
        else acts1
      let acts3 := if m.is_task_complete_event ev then
          List.append acts2 [(m.get_task_completed ev, TaskAction.END, ev.time)]
        else acts2
      let acts4 := if m.is_task_suspend_event ev then
          List.append acts3 [(ev.encountering_task_id, TaskAction.SUSPEND, ev.time)]
        else if m.is_task_resume_event ev then
          List.append acts3 [(ev.encountering_task_id, TaskAction.RESUME, ev.time)]
        else acts3
      let susp2 := if m.is_task_suspend_event ev then
          List.append st.suspendMetaRecs
            [(ev.encountering_task_id, ev.time, ev.sync_descendant_tasks == 1)]
        else st.suspendMetaRecs
      Except.ok
        { k := st.k + 1,
          num_chunks := nc,
          processed := List.append st.processed [ev],
          chunkOps := List.append st.chunkOps [op],
          taskMeta := meta2,
          taskActions := acts4,
          suspendMetaRecs := susp2 }

/-- The event loop of `BaseEventModel.generate_chunks`. -/
def driverRun (m : EventModelIface) : List Event → DriverSt → Except SimError DriverSt
  | [], st => Except.ok st
  | ev :: evs, st =>
    match driverStep m st ev with
    | Except.error e => Except.error e
    | Except.ok st2 => driverRun m evs st2

/-- Embedding of `BaseEventModel.generate_chunks`: iterate the event stream once and
return `num_chunks`. -/
def generate_chunks (m : EventModelIface) (events : List Event) : Except SimError Nat :=
  match driverRun m events {} with
  | Except.error e => Except.error e
  | Except.ok st => Except.ok st.num_chunks

/-! ## Concrete example inputs -/

/-- A leaf child task: id 2, created at native `t=10`, native duration 150. -/
def BT1childA : Otter.Task := Otter.Task.mk 2 0 10 12 162 [] []

/-- A leaf child task: id 3, created at native `t=20`, native duration 30. -/
def BT1childB : Otter.Task := Otter.Task.mk 3 0 20 25 55 [] []

/-- A branch task (id 1, two recorded children) that creates `BT1childA` and
`BT1childB` during its first active interval and then suspends at a barrier
with recorded sync mode CHILDREN. -/
def BT1 : Otter.Task :=
  Otter.Task.mk 1 2 0 0 200
    [SchedState.mk TaskAction.START TaskAction.SUSPEND 0 100 100 [BT1childA, BT1childB],
     SchedState.mk TaskAction.SUSPEND TaskAction.RESUME 100 150 50 [],
     SchedState.mk TaskAction.RESUME TaskAction.END 150 160 10 []]
    [(100, TaskSyncMode.CHILDREN)]

/-- A leaf child task: id 2, created at native `t=5`, native duration 20, so
its simulated execution (start 5, end 25) finishes long before its parent
reaches the barrier at global time 100. -/
def BT2child : Otter.Task := Otter.Task.mk 2 0 5 5 25 [] []

/-- A branch task (id 1, one recorded child) that creates `BT2child` during
its first active interval and then suspends at a barrier with recorded sync
mode DESCENDANTS, at a global time later than the child's simulated end. -/
def BT2 : Otter.Task :=
  Otter.Task.mk 1 1 0 0 120
    [SchedState.mk TaskAction.START TaskAction.SUSPEND 0 100 100 [BT2child],
     SchedState.mk TaskAction.SUSPEND TaskAction.RESUME 100 110 10 [],
     SchedState.mk TaskAction.RESUME TaskAction.END 110 120 10 []]
    [(100, TaskSyncMode.DESCENDANTS)]

/-- A leaf child of a phase task: id 2, native duration 50. -/
def PA : Otter.Task := Otter.Task.mk 2 0 5 5 55 [] []

/-- A leaf child of a phase task: id 3, native duration 30. -/
def PB : Otter.Task := Otter.Task.mk 3 0 6 6 36 [] []

/-- An active scheduling state of a phase task that creates `PA` and `PB` and
ends in a SUSPEND at `t=100`. -/
def phaseState1 : SchedState :=
  SchedState.mk TaskAction.START TaskAction.SUSPEND 0 100 100 [PA, PB]

/-- A task whose recorded child count (1) disagrees with the children actually
found in its scheduling states (none). -/
def T8 : Otter.Task := Otter.Task.mk 7 1 0 0 10 [] []

/-- A phase task whose recorded child count (2) disagrees with the children
actually found in its scheduling states (none). -/
def TP8 : Otter.Task := Otter.Task.mk 9 2 0 0 10 [] []

/-- The task-create event of the root task in the flat task-graph model:
event type task-create, `unique_id` 0, no encountering task. -/
def rootCreateEvent : Event :=
  { event_type := EventType.task_create, unique_id := 0,
    encountering_task_id := NullTaskID, time := 7, task_label := "root" }

/-- A task-switch event whose prior task's status is `complete`. -/
def switchCompleteEvent : Event :=
  { event_type := EventType.task_switch, prior_task_status := TaskStatus.complete,
    encountering_task_id := 4, next_task_id := 9, time := 3 }

/-- A two-event stream (two sync-begin events) in which no event completes a
chunk. -/
def C4events : List Event :=
  [{ event_type := EventType.sync_begin, encountering_task_id := 1, time := 1 },
   { event_type := EventType.sync_begin, encountering_task_id := 1, time := 2 }]

/-- A `branch_task` loop state at a CHILDREN barrier: global time 100,
pending children 2 and 3 with simulated `end_ts` 160 and 50, and a previously
recorded critical-task entry. -/
def C1branchSt : BSt :=
  { gts := 100, exec_dt := 100, susp_dt := 0, visited := 2, barrier := 1,
    pending := [2, 3],
    dtd := [(2, { task := 2, start_ts := 10, duration := 150, end_ts := 160 }),
            (3, { task := 3, start_ts := 20, duration := 30, end_ts := 50 })],
    out := { crit := [(7, 0, 5)], actions := [], suspendMeta := [] } }

/-- A SUSPEND-starting scheduling state at `t=100`. -/
def C1branchS : SchedState := SchedState.mk TaskAction.SUSPEND TaskAction.RESUME 100 150 50 []

/-- The driver state after `generate_chunks` processes `C4events` under the
flat task-graph model: both events took the default chunk path, no chunk was
completed, and two SUSPEND actions and suspend-metadata records were
emitted. -/
def C4finalSt : DriverSt :=
  { k := 2, num_chunks := 0, processed := C4events,
    chunkOps := [ChunkOp.defaultAppend 1, ChunkOp.defaultAppend 1],
    taskMeta := [],
    taskActions := [(1, TaskAction.SUSPEND, 1), (1, TaskAction.SUSPEND, 2)],
    suspendMetaRecs := [(1, 1, false), (1, 2, false)] }

/-! ## Helper lemmas -/

/-- The barrier-duration computation of `branch_task`
(`if latest.end_ts >= global_start_ts then latest.end_ts - global_start_ts
else 0`) equals `max 0 (end_ts - global_start_ts)`. -/
theorem ite_sub_eq_max (e g : Int) : (if e ≥ g then e - g else 0) = max 0 (e - g) := by
  rcases le_or_lt g e with h | h
  · rw [if_pos h, max_eq_right (by omega)]
  · rw [if_neg (by omega), max_eq_left (by omega)]

/-- Advancing global time by the barrier duration resolves the barrier at
`max global latest_end`. -/
theorem add_ite_sub_eq_max (g e : Int) : (g + if e ≥ g then e - g else 0) = max g e := by
  rcases le_or_lt g e with h | h
  · rw [if_pos h, max_eq_right h]; omega
  · rw [if_neg (by omega), max_eq_left (by omega)]; omega

/-- Characterization of a CHILDREN suspend step of `branch_task` when the
pending-children lookups and the maximum both succeed: the barrier duration
is `max 0 (latest.end_ts - global_time)`, the pending list is cleared, the
simulated SUSPEND/RESUME pair is emitted, and no critical-task entry is
recorded. -/
theorem branchStep_children_ok (dFn : DescendFn) (tid : Nat)
    (meta : List (Int × TaskSyncMode)) (st : BSt) (s : SchedState)
    (ts : List Timings) (latest : Timings)
    (h1 : s.action_start = TaskAction.SUSPEND)
    (h2 : metaLookup meta s.start_ts = some TaskSyncMode.CHILDREN)
    (h3 : List.mapM (dictGetE st.dtd) st.pending = Except.ok ts)
    (h4 : pyMax ts = Except.ok latest) :
    branchStep dFn tid meta st s =
      Except.ok { st with
        gts := st.gts + max 0 (latest.end_ts - st.gts),
        susp_dt := st.susp_dt + max 0 (latest.end_ts - st.gts),
        pending := [],
        out := { crit := st.out.crit,
                 actions := List.append st.out.actions
                   [(tid, TaskAction.SUSPEND, st.gts),
                    (tid, TaskAction.RESUME, st.gts + max 0 (latest.end_ts - st.gts))],
                 suspendMeta := List.append st.out.suspendMeta [(tid, st.gts, 0)] } } := by
  have hact : s.is_active = false := by simp [SchedState.is_active, h1]
  simp only [List.mapM] at h3
  simp [branchStep, hact, h1, h2, resolveBranchSuspend, h3, h4, ite_sub_eq_max,
    TaskSyncMode.value]

/-- A CHILDREN suspend step propagates a failing pending-children lookup
(KeyError). -/
theorem branchStep_children_err_lookup (dFn : DescendFn) (tid : Nat)
    (meta : List (Int × TaskSyncMode)) (st : BSt) (s : SchedState) (e : SimError)
    (h1 : s.action_start = TaskAction.SUSPEND)
    (h2 : metaLookup meta s.start_ts = some TaskSyncMode.CHILDREN)
    (h3 : List.mapM (dictGetE st.dtd) st.pending = Except.error e) :
    branchStep dFn tid meta st s = Except.error e := by
  have hact : s.is_active = false := by simp [SchedState.is_active, h1]
  simp only [List.mapM] at h3
  simp [branchStep, hact, h1, h2, resolveBranchSuspend, h3]

/-- A CHILDREN suspend step propagates a failing maximum (ValueError on an
empty pending list). -/
theorem branchStep_children_err_max (dFn : DescendFn) (tid : Nat)
    (meta : List (Int × TaskSyncMode)) (st : BSt) (s : SchedState)
    (ts : List Timings) (e : SimError)
    (h1 : s.action_start = TaskAction.SUSPEND)
    (h2 : metaLookup meta s.start_ts = some TaskSyncMode.CHILDREN)
    (h3 : List.mapM (dictGetE st.dtd) st.pending = Except.ok ts)
    (h4 : pyMax ts = Except.error e) :
    branchStep dFn tid meta st s = Except.error e := by
  have hact : s.is_active = false := by simp [SchedState.is_active, h1]
  simp only [List.mapM] at h3
  simp [branchStep, hact, h1, h2, resolveBranchSuspend, h3, h4]

/-! ## Claims about the ideal simulator -/

/-- Claim C9: if a branch task reaches a SUSPEND interval whose recorded sync
mode is CHILDREN while `children_pending` is empty, `branch_task` computes
`max()` over an empty sequence, which raises ValueError — the barrier is not
resolved with zero delay. -/
theorem C9_thm (dFn : DescendFn) (tid : Nat) (meta : List (Int × TaskSyncMode))
    (st : BSt) (s : SchedState)
    (h1 : s.action_start = TaskAction.SUSPEND)
    (h2 : metaLookup meta s.start_ts = some TaskSyncMode.CHILDREN)
    (h3 : st.pending = []) :
    branchStep dFn tid meta st s =
      Except.error (SimError.valueError "max() arg is an empty sequence") := by
  have hact : s.is_active = false := by simp [SchedState.is_active, h1]
  simp [branchStep, hact, h1, h2, resolveBranchSuspend, h3, pyMax, List.mapM, List.mapM.loop, pure, Except.pure]

/-- Claim C9 witness: a concrete SUSPEND state with sync mode CHILDREN and no
pending children makes `branchStep` fail with the ValueError. -/
theorem C9_witness :
    branchStep (descend 1) 1 [(40, TaskSyncMode.CHILDREN)]
      { gts := 40, exec_dt := 40, susp_dt := 0, visited := 0, barrier := 0,
        pending := [], dtd := [], out := {} }
      (SchedState.mk TaskAction.SUSPEND TaskAction.RESUME 40 60 20 []) =
      Except.error (SimError.valueError "max() arg is an empty sequence") := by
  have h := C9_thm (descend 1) 1 [(40, TaskSyncMode.CHILDREN)]
    { gts := 40, exec_dt := 40, susp_dt := 0, visited := 0, barrier := 0,
      pending := [], dtd := [], out := {} }
    (SchedState.mk TaskAction.SUSPEND TaskAction.RESUME 40 60 20 []) rfl rfl rfl
  exact h

/-- Claim C10: the children loop of `branch_task` requires every child's
`create_ts` to be strictly greater than the active state's `start_ts`: when
they are equal, `child_crt_dt = 0` and `assert child_crt_dt > 0` fails with
the message "child_crt_dt must not be negative", even though a zero offset is
non-negative. -/
theorem C10_thm (dFn : DescendFn) (state_start_ts gts : Int) (c : Otter.Task)
    (cs : List Otter.Task) (localTd dtd : TimingDict) (out : Output) (visited : Nat)
    (h : c.create_ts = state_start_ts) :
    branchChildren dFn state_start_ts gts (c :: cs) localTd dtd out visited =
      Except.error (SimError.assertionError "child_crt_dt must not be negative") := by
  simp [branchChildren, h]

/-- Claim C10 witness: a concrete child created exactly at the active state's
start timestamp aborts the children loop with the assertion error. -/
theorem C10_witness :
    branchChildren (descend 1) 5 0 [Otter.Task.mk 2 0 5 5 25 [] []] [] [] {} 0 =
      Except.error (SimError.assertionError "child_crt_dt must not be negative") := by
  have h := C10_thm (descend 1) 5 0 (Otter.Task.mk 2 0 5 5 25 [] []) [] [] [] {} 0 rfl
  exact h

/-- Claim C7: a SUSPEND interval with sync mode YIELD adds zero barrier delay
(the simulated RESUME is emitted at the same timestamp as the simulated
SUSPEND), leaves the global time, the suspended-duration accumulator, the
pending children and the barrier counter unchanged, and records no
critical-task entry — regardless of any pending children (no hypothesis about
`st.pending` or `st.dtd` is needed, because no comparison over child or
descendant timings is performed). -/
theorem C7_thm (dFn : DescendFn) (tid : Nat) (meta : List (Int × TaskSyncMode))
    (st : BSt) (s : SchedState)
    (h1 : s.action_start = TaskAction.SUSPEND)
    (h2 : metaLookup meta s.start_ts = some TaskSyncMode.YIELD) :
    branchStep dFn tid meta st s =
      Except.ok { st with
        out := { crit := st.out.crit,
                 actions := List.append st.out.actions
                   [(tid, TaskAction.SUSPEND, st.gts), (tid, TaskAction.RESUME, st.gts)],
                 suspendMeta := List.append st.out.suspendMeta [(tid, st.gts, 2)] } } := by
  have hact : s.is_active = false := by simp [SchedState.is_active, h1]
  simp [branchStep, hact, h1, h2, resolveBranchSuspend, TaskSyncMode.value]

/-- Claim C7 witness: a concrete YIELD suspend with a non-empty pending-children
list resolves with zero delay and no critical-task record. -/
theorem C7_witness :
    branchStep (descend 1) 1 [(40, TaskSyncMode.YIELD)]
      { gts := 70, exec_dt := 40, susp_dt := 0, visited := 1, barrier := 0,
        pending := [2], dtd := [(2, { task := 2, start_ts := 10, duration := 80, end_ts := 90 })],
        out := {} }
      (SchedState.mk TaskAction.SUSPEND TaskAction.RESUME 40 60 20 []) =
      Except.ok
        { gts := 70, exec_dt := 40, susp_dt := 0, visited := 1, barrier := 0,
          pending := [2], dtd := [(2, { task := 2, start_ts := 10, duration := 80, end_ts := 90 })],
          out := { crit := [],
                   actions := [(1, TaskAction.SUSPEND, 70), (1, TaskAction.RESUME, 70)],
                   suspendMeta := [(1, 70, 2)] } } := by
  have h := C7_thm (descend 1) 1 [(40, TaskSyncMode.YIELD)]
    { gts := 70, exec_dt := 40, susp_dt := 0, visited := 1, barrier := 0,
      pending := [2], dtd := [(2, { task := 2, start_ts := 10, duration := 80, end_ts := 90 })],
      out := {} }
    (SchedState.mk TaskAction.SUSPEND TaskAction.RESUME 40 60 20 []) rfl rfl
  rw [h]; exact rfl

/-- Claim C3 (amended only in presentation; the computation is as claimed): for
a SUSPEND interval of a branch task with recorded sync mode CHILDREN, the
barrier's idealized duration is `max(0, latest_synchronized_child.end_ts −
global_time)` where the comparison runs over exactly the pending children
(those created since the previous synchronizing barrier, per the second
conjunct the pending list is extended by the children created during each
active state and per the first conjunct it is cleared by the barrier), the
simulated RESUME is emitted after that duration, and global simulated time
advances by that duration. -/
theorem C3_thm :
    (∀ (dFn : DescendFn) (tid : Nat) (meta : List (Int × TaskSyncMode)) (st : BSt)
        (s : SchedState) (ts : List Timings) (latest : Timings),
      s.action_start = TaskAction.SUSPEND →
      metaLookup meta s.start_ts = some TaskSyncMode.CHILDREN →
      List.mapM (dictGetE st.dtd) st.pending = Except.ok ts →
      pyMax ts = Except.ok latest →
      branchStep dFn tid meta st s =
        Except.ok { st with
          gts := st.gts + max 0 (latest.end_ts - st.gts),
          susp_dt := st.susp_dt + max 0 (latest.end_ts - st.gts),
          pending := [],
          out := { crit := st.out.crit,
                   actions := List.append st.out.actions
                     [(tid, TaskAction.SUSPEND, st.gts),
                      (tid, TaskAction.RESUME, st.gts + max 0 (latest.end_ts - st.gts))],
                   suspendMeta := List.append st.out.suspendMeta [(tid, st.gts, 0)] } })
    ∧
    (∀ (dFn : DescendFn) (tid : Nat) (meta : List (Int × TaskSyncMode)) (st : BSt)
        (s : SchedState) (localTd dtd2 : TimingDict) (out2 : Output) (visited2 : Nat),
      s.is_active = true →
      branchChildren dFn s.start_ts st.gts s.childrenCreated [] st.dtd st.out st.visited
        = Except.ok (localTd, dtd2, out2, visited2) →
      branchStep dFn tid meta st s =
        Except.ok { st with
          gts := st.gts + s.duration,
          exec_dt := st.exec_dt + s.duration,
          visited := visited2,
          pending := List.append st.pending (List.map Otter.Task.id s.childrenCreated),
          dtd := dtd2,
          out := out2 }) := by
  constructor
  · intro dFn tid meta st s ts latest h1 h2 h3 h4
    exact branchStep_children_ok dFn tid meta st s ts latest h1 h2 h3 h4
  · intro dFn tid meta st s localTd dtd2 out2 visited2 h1 h2
    simp [branchStep, h1, h2]

/-- Claim C3 witness: at a concrete branch task, (a) a CHILDREN barrier at
global time 100 over pending children with simulated `end_ts` 160 and 50
resolves after `max(0, 160 − 100) = 60` and clears the pending list, and (b)
an active state creating `BT1childA` and `BT1childB` appends their ids to the
pending list. -/
theorem C3_witness :
    branchStep (descend 5) 1 [(100, TaskSyncMode.CHILDREN)]
      { gts := 100, exec_dt := 100, susp_dt := 0, visited := 2, barrier := 0,
        pending := [2, 3],
        dtd := [(2, { task := 2, start_ts := 10, duration := 150, end_ts := 160 }),
                (3, { task := 3, start_ts := 20, duration := 30, end_ts := 50 })],
        out := {} }
      (SchedState.mk TaskAction.SUSPEND TaskAction.RESUME 100 150 50 []) =
      Except.ok
        { gts := 160, exec_dt := 100, susp_dt := 60, visited := 2, barrier := 0,
          pending := [],
          dtd := [(2, { task := 2, start_ts := 10, duration := 150, end_ts := 160 }),
                  (3, { task := 3, start_ts := 20, duration := 30, end_ts := 50 })],
          out := { crit := [],
                   actions := [(1, TaskAction.SUSPEND, 100), (1, TaskAction.RESUME, 160)],
                   suspendMeta := [(1, 100, 0)] } } ∧
    branchStep (descend 5) 1 [(100, TaskSyncMode.CHILDREN)]
      { gts := 0, exec_dt := 0, susp_dt := 0, visited := 0, barrier := 0,
        pending := [], dtd := [], out := {} }
      (SchedState.mk TaskAction.START TaskAction.SUSPEND 0 100 100 [BT1childA, BT1childB]) =
      Except.ok
        { gts := 100, exec_dt := 100, susp_dt := 0, visited := 2, barrier := 0,
          pending := [2, 3],
          dtd := [(2, { task := 2, start_ts := 10, duration := 150, end_ts := 160 }),
                  (3, { task := 3, start_ts := 20, duration := 30, end_ts := 50 })],
          out := { crit := [],
                   actions := [(2, TaskAction.CREATE, 10), (2, TaskAction.START, 10),
                               (2, TaskAction.END, 160), (3, TaskAction.CREATE, 20),
                               (3, TaskAction.START, 20), (3, TaskAction.END, 50)],
                   suspendMeta := [] } } := by
  constructor
  · have h := C3_thm.1 (descend 5) 1 [(100, TaskSyncMode.CHILDREN)]
      { gts := 100, exec_dt := 100, susp_dt := 0, visited := 2, barrier := 0,
        pending := [2, 3],
        dtd := [(2, { task := 2, start_ts := 10, duration := 150, end_ts := 160 }),
                (3, { task := 3, start_ts := 20, duration := 30, end_ts := 50 })],
        out := {} }
      (SchedState.mk TaskAction.SUSPEND TaskAction.RESUME 100 150 50 [])
      [{ task := 2, start_ts := 10, duration := 150, end_ts := 160 },
       { task := 3, start_ts := 20, duration := 30, end_ts := 50 }]
      { task := 2, start_ts := 10, duration := 150, end_ts := 160 } rfl rfl rfl rfl
    rw [h]; exact rfl
  · have h := C3_thm.2 (descend 5) 1 [(100, TaskSyncMode.CHILDREN)]
      { gts := 0, exec_dt := 0, susp_dt := 0, visited := 0, barrier := 0,
        pending := [], dtd := [], out := {} }
      (SchedState.mk TaskAction.START TaskAction.SUSPEND 0 100 100 [BT1childA, BT1childB])
      [(2, { task := 2, start_ts := 10, duration := 150, end_ts := 160 }),
       (3, { task := 3, start_ts := 20, duration := 30, end_ts := 50 })]
      [(2, { task := 2, start_ts := 10, duration := 150, end_ts := 160 }),
       (3, { task := 3, start_ts := 20, duration := 30, end_ts := 50 })]
      { crit := [],
        actions := [(2, TaskAction.CREATE, 10), (2, TaskAction.START, 10),
                    (2, TaskAction.END, 160), (3, TaskAction.CREATE, 20),
                    (3, TaskAction.START, 20), (3, TaskAction.END, 50)],
        suspendMeta := [] }
      2 rfl (by exact rfl)
    rw [h]; exact rfl

/-- Claim C2 counterexample: in `BT2`, a branch task reaches a SUSPEND interval
with recorded sync mode DESCENDANTS at global time 100 while its only
descendant's simulated `end_ts` is 25; the claim says the barrier resolves at
the set's latest simulated `end_ts` (25) and that this descendant is recorded
as critical, but the simulation resumes the task at 100 (no delay) and
records no critical-task entry at all. -/
theorem C2_counterexample :
    metaLookup BT2.suspendMeta 100 = some TaskSyncMode.DESCENDANTS ∧
    descend 5 BT2 0 [] {} =
      Except.ok (110,
        [(2, { task := 2, start_ts := 5, duration := 20, end_ts := 25 }),
         (1, { task := 1, start_ts := 0, duration := 110, end_ts := 110 })],
        { crit := [],
          actions := [(1, TaskAction.CREATE, 0), (1, TaskAction.START, 0),
                      (2, TaskAction.CREATE, 5), (2, TaskAction.START, 5),
                      (2, TaskAction.END, 25), (1, TaskAction.SUSPEND, 100),
                      (1, TaskAction.RESUME, 100), (1, TaskAction.END, 110)],
          suspendMeta := [(1, 100, 1)] }) := by
  exact ⟨rfl, rfl⟩

/-- Claim C2 (amended): for a SUSPEND interval of a branch task with recorded
sync mode DESCENDANTS, the comparison set is the full map of simulated
Timings accumulated for all descendants simulated so far (not only direct
children — the hypothesis compares `dictValues st.dtd`); the barrier resolves
at `max(global_time, latest_descendant.end_ts)`; and the latest-finishing
descendant — possibly a grandchild — is recorded as the critical descendant
exactly when its simulated `end_ts` is at or after the current global time
(otherwise the barrier adds no delay and no critical-task entry is
recorded). -/
theorem C2_thm (dFn : DescendFn) (tid : Nat) (meta : List (Int × TaskSyncMode))
    (st : BSt) (s : SchedState) (latest : Timings)
    (h1 : s.action_start = TaskAction.SUSPEND)
    (h2 : metaLookup meta s.start_ts = some TaskSyncMode.DESCENDANTS)
    (h3 : pyMax (dictValues st.dtd) = Except.ok latest) :
    branchStep dFn tid meta st s =
      Except.ok { st with
        gts := max st.gts latest.end_ts,
        susp_dt := st.susp_dt + max 0 (latest.end_ts - st.gts),
        pending := [],
        barrier := if st.gts ≤ latest.end_ts then st.barrier + 1 else st.barrier,
        out := { crit := if st.gts ≤ latest.end_ts
                   then List.append st.out.crit [(tid, st.barrier, latest.task)]
                   else st.out.crit,
                 actions := List.append st.out.actions
                   [(tid, TaskAction.SUSPEND, st.gts),
                    (tid, TaskAction.RESUME, max st.gts latest.end_ts)],
                 suspendMeta := List.append st.out.suspendMeta [(tid, st.gts, 1)] } } := by
  have hact : s.is_active = false := by simp [SchedState.is_active, h1]
  rcases le_or_lt st.gts latest.end_ts with hle | hlt
  · have hmax1 : max st.gts latest.end_ts = latest.end_ts := max_eq_right hle
    have hmax2 : max (0 : Int) (latest.end_ts - st.gts) = latest.end_ts - st.gts :=
      max_eq_right (by omega)
    have hadd : st.gts + (latest.end_ts - st.gts) = latest.end_ts := by omega
    simp [branchStep, hact, h1, h2, resolveBranchSuspend, h3, TaskSyncMode.value,
      hle, hmax1, hmax2, hadd]
  · have hnle : ¬ st.gts ≤ latest.end_ts := not_le.mpr hlt
    have hmax1 : max st.gts latest.end_ts = st.gts := max_eq_left (le_of_lt hlt)
    have hmax2 : max (0 : Int) (latest.end_ts - st.gts) = 0 := max_eq_left (by omega)
    simp [branchStep, hact, h1, h2, resolveBranchSuspend, h3, TaskSyncMode.value,
      hnle, hmax1, hmax2]

/-- Claim C2 witness: a concrete DESCENDANTS barrier at global time 50 whose
descendants map holds a grandchild (id 3, simulated `end_ts` 180) and a
direct child (id 2, simulated `end_ts` 35): the barrier resolves at 180 and
the grandchild is recorded as the critical descendant. -/
theorem C2_witness :
    branchStep (descend 5) 1 [(50, TaskSyncMode.DESCENDANTS)]
      { gts := 50, exec_dt := 50, susp_dt := 0, visited := 1, barrier := 0,
        pending := [2],
        dtd := [(3, { task := 3, start_ts := 15, duration := 165, end_ts := 180 }),
                (2, { task := 2, start_ts := 5, duration := 30, end_ts := 35 })],
        out := {} }
      (SchedState.mk TaskAction.SUSPEND TaskAction.RESUME 50 60 10 []) =
      Except.ok
        { gts := 180, exec_dt := 50, susp_dt := 130, visited := 1, barrier := 1,
          pending := [],
          dtd := [(3, { task := 3, start_ts := 15, duration := 165, end_ts := 180 }),
                  (2, { task := 2, start_ts := 5, duration := 30, end_ts := 35 })],
          out := { crit := [(1, 0, 3)],
                   actions := [(1, TaskAction.SUSPEND, 50), (1, TaskAction.RESUME, 180)],
                   suspendMeta := [(1, 50, 1)] } } := by
  have h := C2_thm (descend 5) 1 [(50, TaskSyncMode.DESCENDANTS)]
    { gts := 50, exec_dt := 50, susp_dt := 0, visited := 1, barrier := 0,
      pending := [2],
      dtd := [(3, { task := 3, start_ts := 15, duration := 165, end_ts := 180 }),
              (2, { task := 2, start_ts := 5, duration := 30, end_ts := 35 })],
      out := {} }
    (SchedState.mk TaskAction.SUSPEND TaskAction.RESUME 50 60 10 [])
    { task := 3, start_ts := 15, duration := 165, end_ts := 180 } rfl rfl rfl
  rw [h]; exact rfl

/-- Claim C1 counterexample: `BT1` is a branch task with a SUSPEND interval
whose recorded sync mode is CHILDREN and whose synchronized set is non-empty
(children 2 and 3 are pending); the barrier resolves at 160 (the simulated
RESUME is 60 after the SUSPEND at 100), yet the simulation records no
critical-task entry at all — `branch_task` never invokes the critical-task
callback for CHILDREN barriers. -/
theorem C1_counterexample :
    metaLookup BT1.suspendMeta 100 = some TaskSyncMode.CHILDREN ∧
    descend 5 BT1 0 [] {} =
      Except.ok (170,
        [(2, { task := 2, start_ts := 10, duration := 150, end_ts := 160 }),
         (3, { task := 3, start_ts := 20, duration := 30, end_ts := 50 }),
         (1, { task := 1, start_ts := 0, duration := 170, end_ts := 170 })],
        { crit := [],
          actions := [(1, TaskAction.CREATE, 0), (1, TaskAction.START, 0),
                      (2, TaskAction.CREATE, 10), (2, TaskAction.START, 10),
                      (2, TaskAction.END, 160), (3, TaskAction.CREATE, 20),
                      (3, TaskAction.START, 20), (3, TaskAction.END, 50),
                      (1, TaskAction.SUSPEND, 100), (1, TaskAction.RESUME, 160),
                      (1, TaskAction.END, 170)],
          suspendMeta := [(1, 100, 0)] }) := by
  exact ⟨rfl, rfl⟩

/-- Claim C1 (amended): critical-task entries for CHILDREN barriers are
recorded only by `simulate_phase` (top-level phase tasks): for an active
phase state ending in a SUSPEND with recorded sync mode CHILDREN and a
non-empty synchronized set, the critical-task callback records the phase id,
the per-task barrier sequence number and the id of the synchronized child
with the latest simulated `end_ts` (first conjunct).  Inside descended branch
tasks, a CHILDREN barrier records no critical-task entry (second conjunct:
the critical-task list is unchanged by any successful CHILDREN suspend
step). -/
theorem C1_thm :
    (∀ (dFn : DescendFn) (pid : Nat) (meta : List (Int × TaskSyncMode)) (st : PhSt)
        (s : SchedState) (td : TimingDict) (out2 : Output) (visited2 : Nat)
        (ts : List Timings) (latest : Timings),
      s.is_active = true →
      s.action_end = TaskAction.SUSPEND →
      s.childrenCreated.isEmpty = false →
      metaLookup meta s.end_ts = some TaskSyncMode.CHILDREN →
      phaseChildren dFn s.childrenCreated st.gts [] st.out st.visited
        = Except.ok (td, out2, visited2) →
      List.mapM (dictGetE td) (List.map Otter.Task.id s.childrenCreated) = Except.ok ts →
      pyMax ts = Except.ok latest →
      phaseStep dFn pid meta st s =
        Except.ok { gts := max st.gts latest.end_ts, visited := visited2,
                    barrier := st.barrier + 1,
                    out := { crit := List.append out2.crit [(pid, st.barrier, latest.task)],
                             actions := out2.actions,
                             suspendMeta := List.append out2.suspendMeta
                               [(pid, st.gts, 0)] } })
    ∧
    (∀ (dFn : DescendFn) (tid : Nat) (meta : List (Int × TaskSyncMode)) (st : BSt)
        (s : SchedState) (st2 : BSt),
      s.action_start = TaskAction.SUSPEND →
      metaLookup meta s.start_ts = some TaskSyncMode.CHILDREN →
      branchStep dFn tid meta st s = Except.ok st2 →
      st2.out.crit = st.out.crit) := by
  constructor
  · intro dFn pid meta st s td out2 visited2 ts latest h1 h2 h3 h4 h5 h6 h7
    simp only [List.mapM] at h6
    simp [phaseStep, h1, h2, h3, h4, h5, h6, h7, TaskSyncMode.value]
  · intro dFn tid meta st s st2 h1 h2 hok
    cases hm : List.mapM (dictGetE st.dtd) st.pending with
    | error e =>
      rw [branchStep_children_err_lookup dFn tid meta st s e h1 h2 hm] at hok
      exact Except.noConfusion hok
    | ok ts =>
      cases hp : pyMax ts with
      | error e =>
        rw [branchStep_children_err_max dFn tid meta st s ts e h1 h2 hm hp] at hok
        exact Except.noConfusion hok
      | ok latest =>
        rw [branchStep_children_ok dFn tid meta st s ts latest h1 h2 hm hp] at hok
        simp only [Except.ok.injEq] at hok
        subst hok
        rfl

/-- Claim C1 witness: (a) the phase task 1 suspends at a CHILDREN barrier after
creating children 2 (simulated `end_ts` 50) and 3 (simulated `end_ts` 30):
`simulate_phase` records the critical-task entry `(1, 0, 2)` and resolves the
barrier at 50; (b) the same kind of barrier inside a branch task leaves the
critical-task list unchanged. -/
theorem C1_witness :
    phaseStep (descend 5) 1 [(100, TaskSyncMode.CHILDREN)]
      { gts := 0, visited := 0, barrier := 0, out := {} } phaseState1 =
      Except.ok
        { gts := 50, visited := 2, barrier := 1,
          out := { crit := [(1, 0, 2)],
                   actions := [(2, TaskAction.CREATE, 0), (2, TaskAction.START, 0),
                               (2, TaskAction.END, 50), (3, TaskAction.CREATE, 0),
                               (3, TaskAction.START, 0), (3, TaskAction.END, 30)],
                   suspendMeta := [(1, 0, 0)] } } ∧
    (match branchStep (descend 5) 1 [(100, TaskSyncMode.CHILDREN)] C1branchSt C1branchS with
     | Except.ok st2 => st2.out.crit
     | Except.error _ => []) = C1branchSt.out.crit := by
  constructor
  · have h := C1_thm.1 (descend 5) 1 [(100, TaskSyncMode.CHILDREN)]
      { gts := 0, visited := 0, barrier := 0, out := {} } phaseState1
      [(2, { task := 2, start_ts := 0, duration := 50, end_ts := 50 }),
       (3, { task := 3, start_ts := 0, duration := 30, end_ts := 30 })]
      { crit := [],
        actions := [(2, TaskAction.CREATE, 0), (2, TaskAction.START, 0),
                    (2, TaskAction.END, 50), (3, TaskAction.CREATE, 0),
                    (3, TaskAction.START, 0), (3, TaskAction.END, 30)],
        suspendMeta := [] }
      2
      [{ task := 2, start_ts := 0, duration := 50, end_ts := 50 },
       { task := 3, start_ts := 0, duration := 30, end_ts := 30 }]
      { task := 2, start_ts := 0, duration := 50, end_ts := 50 }
      rfl rfl rfl rfl (by exact rfl) (by exact rfl) rfl
    rw [h]; exact rfl
  · have h := C1_thm.2 (descend 5) 1 [(100, TaskSyncMode.CHILDREN)] C1branchSt C1branchS
      { gts := 160, exec_dt := 100, susp_dt := 60, visited := 2, barrier := 1,
        pending := [],
        dtd := [(2, { task := 2, start_ts := 10, duration := 150, end_ts := 160 }),
                (3, { task := 3, start_ts := 20, duration := 30, end_ts := 50 })],
        out := { crit := [(7, 0, 5)],
                 actions := [(1, TaskAction.SUSPEND, 100), (1, TaskAction.RESUME, 160)],
                 suspendMeta := [(1, 100, 0)] } }
      rfl rfl (by exact rfl)
    exact h

/-- Claim C8: in both `branch_task` and `simulate_phase`, after all scheduling
states are processed, if the number of children descended into differs from
the task's recorded child count, the `assert children_visited ==
task.children` fails and the simulation of that task aborts with an
AssertionError (the `Except` result is an error, never a partial `ok`). -/
theorem C8_thm :
    (∀ (dFn : DescendFn) (t : Otter.Task) (gts : Int) (td : TimingDict) (out : Output)
        (st : BSt),
      branchStates dFn t.id t.suspendMeta t.states
        { gts := gts, exec_dt := 0, susp_dt := 0, visited := 0, barrier := 0,
          pending := [], dtd := [], out := out } = Except.ok st →
      st.visited ≠ t.children →
      branch_task dFn t gts td out =
        Except.error (SimError.assertionError "children_visited == task.children"))
    ∧
    (∀ (dFn : DescendFn) (gts : Int) (phase : Otter.Task) (out : Output) (st : PhSt),
      phaseStates dFn phase.id phase.suspendMeta phase.states
        { gts := gts, visited := 0, barrier := 0, out := out } = Except.ok st →
      st.visited ≠ phase.children →
      simulate_phase dFn gts phase out =
        Except.error (SimError.assertionError "children_visited == phase.children")) := by
  constructor
  · intro dFn t gts td out st h1 h2
    simp [branch_task, h1, h2]
  · intro dFn gts phase out st h1 h2
    simp [simulate_phase, h1, h2]

/-- Claim C8 witness: `T8` records one child but its states contain none, so
`branch_task` aborts with the assertion error; `TP8` records two children but
its states contain none, so `simulate_phase` aborts likewise. -/
theorem C8_witness :
    branch_task (descend 1) T8 0 [] {} =
      Except.error (SimError.assertionError "children_visited == task.children") ∧
    simulate_phase (descend 1) 0 TP8 {} =
      Except.error (SimError.assertionError "children_visited == phase.children") := by
  constructor
  · exact C8_thm.1 (descend 1) T8 0 [] {}
      { gts := 0, exec_dt := 0, susp_dt := 0, visited := 0, barrier := 0,
        pending := [], dtd := [], out := {} }
      rfl (by decide)
  · exact C8_thm.2 (descend 1) 0 TP8 {}
      { gts := 0, visited := 0, barrier := 0, out := {} }
      rfl (by decide)

/-- A successful chunk dispatch increments `num_chunks` exactly when the
event completes a chunk. -/
theorem chunkDispatch_ok (m : EventModelIface) (n : Nat) (ev : Event)
    (nc : Nat) (op : ChunkOp)
    (h : chunkDispatch m n ev = Except.ok (nc, op)) :
    nc = n + (if m.event_completes_chunk ev then 1 else 0) := by
  by_cases hc : m.event_completes_chunk ev
  · by_cases hh : m.has_update_chunk_handler ev
    · simp only [chunkDispatch, hc, hh, if_true, Except.ok.injEq, Prod.mk.injEq] at h
      simp [hc, h.1]
    · simp [chunkDispatch, hc, hh] at h
  · by_cases hu : m.event_updates_chunk ev
    · by_cases hh : m.has_update_chunk_handler ev
      · simp only [chunkDispatch, hc, hu, hh, if_true, Bool.false_eq_true, if_false,
          Except.ok.injEq, Prod.mk.injEq] at h
        simp [hc, h.1]
      · simp [chunkDispatch, hc, hu, hh] at h
    · by_cases hs : m.event_skips_chunk_update ev
      · simp only [chunkDispatch, hc, hu, hs, if_true, Bool.false_eq_true, if_false,
          Except.ok.injEq, Prod.mk.injEq] at h
        simp [hc, h.1]
      · simp only [chunkDispatch, hc, hu, hs, Bool.false_eq_true, if_false,
          Except.ok.injEq, Prod.mk.injEq] at h
        simp [hc, h.1]

/-- One successful driver iteration appends the event to the processed list,
increments the enumeration counter, and increments `num_chunks` exactly when
the event completes a chunk. -/
theorem driverStep_ok (m : EventModelIface) (st0 st1 : DriverSt) (ev : Event)
    (h : driverStep m st0 ev = Except.ok st1) :
    st1.processed = List.append st0.processed [ev] ∧
    st1.k = st0.k + 1 ∧
    st1.num_chunks = st0.num_chunks + (if m.event_completes_chunk ev then 1 else 0) := by
  cases hcd : chunkDispatch m st0.num_chunks ev with
  | error e =>
    simp [driverStep, hcd] at h
  | ok p =>
    obtain ⟨nc, op⟩ := p
    cases hrr : registerRecords m ev st0.taskMeta st0.taskActions with
    | error e =>
      simp [driverStep, hcd, hrr] at h
    | ok q =>
      obtain ⟨meta2, acts1⟩ := q
      simp only [driverStep, hcd, hrr, Except.ok.injEq] at h
      subst h
      exact ⟨rfl, rfl, chunkDispatch_ok m st0.num_chunks ev nc op hcd⟩

/-- A successful run of the driver loop over a stream appends exactly that
stream to the processed list, adds its length to the counter, and adds the
number of chunk-completing events to `num_chunks`. -/
theorem driverRun_ok (m : EventModelIface) :
    ∀ (events : List Event) (st0 st : DriverSt),
      driverRun m events st0 = Except.ok st →
      st.processed = List.append st0.processed events ∧
      st.k = st0.k + events.length ∧
      st.num_chunks = st0.num_chunks +
        List.countP (fun e => m.event_completes_chunk e) events
  | [], st0, st, h => by
    simp only [driverRun, Except.ok.injEq] at h
    subst h
    simp
  | ev :: evs, st0, st, h => by
    cases hstep : driverStep m st0 ev with
    | error e =>
      simp only [driverRun, hstep] at h
      exact Except.noConfusion h
    | ok st1 =>
      simp only [driverRun, hstep] at h
      have ih := driverRun_ok m evs st1 st h
      have hs := driverStep_ok m st0 st1 ev hstep
      refine ⟨?_, ?_, ?_⟩
      · rw [ih.1, hs.1]
        simp
      · rw [ih.2.1, hs.2.1]
        simp only [List.length_cons]
        omega
      · rw [ih.2.2, hs.2.2, List.countP_cons]
        by_cases hc : m.event_completes_chunk ev
        · simp [hc]
          omega
        · simp [hc]

/-- Claim C4 (amended): on a successful run, `generate_chunks` iterates the
stream exactly once in arrival order (the processed list equals the input
stream) and counts every event (`k` equals the stream length, and
`total_events` is assigned `k` each iteration), but its return value is
`num_chunks` — the number of chunk-completing events — not the total number
of events processed (that total is only logged). -/
theorem C4_thm (m : EventModelIface) (events : List Event) (st : DriverSt)
    (h : driverRun m events {} = Except.ok st) :
    st.processed = events ∧
    st.k = events.length ∧
    generate_chunks m events = Except.ok st.num_chunks ∧
    st.num_chunks = List.countP (fun e => m.event_completes_chunk e) events := by
  have hc := driverRun_ok m events {} st h
  refine ⟨?_, ?_, ?_, ?_⟩
  · have h1 := hc.1
    simpa using h1
  · have h2 := hc.2.1
    simpa using h2
  · simp [generate_chunks, h]
  · have h3 := hc.2.2
    simpa using h3

/-- Claim C4 counterexample: under the flat task-graph model, a stream of two
sync-begin events is processed completely (two events counted), yet
`generate_chunks` returns 0 — the number of completed chunks — not the total
number of events processed (2). -/
theorem C4_counterexample :
    generate_chunks taskGraphModel C4events = Except.ok 0 ∧
    (match driverRun taskGraphModel C4events {} with
     | Except.ok st => st.k
     | Except.error _ => 0) = 2 ∧
    (0 : Nat) ≠ 2 := by
  exact ⟨rfl, rfl, by decide⟩

/-- Claim C4 witness: for the concrete two-event stream `C4events`, the driver
processes both events in order and returns the chunk count 0. -/
theorem C4_witness :
    C4finalSt.processed = C4events ∧
    C4finalSt.k = C4events.length ∧
    generate_chunks taskGraphModel C4events = Except.ok C4finalSt.num_chunks ∧
    C4finalSt.num_chunks =
      List.countP (fun e => taskGraphModel.event_completes_chunk e) C4events := by
  exact C4_thm taskGraphModel C4events C4finalSt (by exact rfl)

/-- Claim C5 (amended): in the fork-join/worksharing (OMP) classifier, a
task-switch event whose prior task status is "complete" is classified as a
task-complete event but NOT as an update-task-start event —
`is_update_task_start_ts_event` explicitly excludes task-switch events that
are task-complete events. -/
theorem C5_thm (e : Event)
    (h1 : e.event_type = EventType.task_switch)
    (h2 : e.prior_task_status = TaskStatus.complete) :
    OMPEventModel.is_task_complete_event e = true ∧
    OMPEventModel.is_update_task_start_ts_event e = false := by
  constructor
  · simp [OMPEventModel.is_task_complete_event, OMPEventModel.is_task_leave_event,
      OMPEventModel.is_task_switch_event, h1, h2]
  · simp [OMPEventModel.is_update_task_start_ts_event, OMPEventModel.is_task_enter_event,
      OMPEventModel.is_task_switch_event, OMPEventModel.is_task_complete_event,
      OMPEventModel.is_task_leave_event, h1, h2]

/-- Claim C5 counterexample: a concrete task-switch event with prior task
status "complete" is a task-complete event but is not an update-task-start
event, contradicting the claim that it is classified as both
simultaneously. -/
theorem C5_counterexample :
    switchCompleteEvent.event_type = EventType.task_switch ∧
    switchCompleteEvent.prior_task_status = TaskStatus.complete ∧
    OMPEventModel.is_task_complete_event switchCompleteEvent = true ∧
    OMPEventModel.is_update_task_start_ts_event switchCompleteEvent = false := by
  exact ⟨rfl, rfl, rfl, rfl⟩

/-- Claim C5 witness: the amended classification at the concrete task-switch
event. -/
theorem C5_witness :
    OMPEventModel.is_task_complete_event switchCompleteEvent = true ∧
    OMPEventModel.is_update_task_start_ts_event switchCompleteEvent = false := by
  exact C5_thm switchCompleteEvent rfl rfl

/-- Claim C6 (amended): in the flat task-graph variant, the root task-create
event (event type task-create with `unique_id` 0) is not excluded from task
registration — `is_task_register_event` matches every task-create event and
only the chunk update is skipped (`event_skips_chunk_update`).  The driver
therefore enters the registration path for it, where
`get_task_registered_data` raises TypeError (it passes five positional
arguments to the six-field `TaskData` dataclass), so processing the event
aborts: no task-metadata record and no CREATE action are emitted, but by
crash — the iteration ends in an error and the stream is not processed
further — not by exclusion. -/
theorem C6_thm (ev : Event) (st : DriverSt)
    (h1 : ev.event_type = EventType.task_create)
    (h2 : ev.unique_id = 0) :
    TaskGraphEventModel.is_task_register_event ev = true ∧
    TaskGraphEventModel.event_skips_chunk_update ev = true ∧
    driverStep taskGraphModel st ev =
      Except.error
        (SimError.typeError "missing 1 required positional argument: init_location") := by
  refine ⟨?_, ?_, ?_⟩
  · simp [TaskGraphEventModel.is_task_register_event, h1]
  · simp [TaskGraphEventModel.event_skips_chunk_update, h1, h2]
  · simp [driverStep, chunkDispatch, registerRecords, taskGraphModel,
      TaskGraphEventModel.event_completes_chunk,
      TaskGraphEventModel.event_updates_chunk,
      TaskGraphEventModel.event_skips_chunk_update,
      TaskGraphEventModel.is_task_register_event,
      TaskGraphEventModel.get_task_registered_data, h1, h2]

/-- Claim C6 counterexample: the concrete root task-create event is a
register event (not excluded from registration); processing it under the
flat task-graph model aborts with the TypeError raised inside
`get_task_registered_data`, rather than being benignly excluded — the only
exclusion in the source (`event_skips_chunk_update`) concerns chunk
updates. -/
theorem C6_counterexample :
    TaskGraphEventModel.is_task_register_event rootCreateEvent = true ∧
    TaskGraphEventModel.event_skips_chunk_update rootCreateEvent = true ∧
    driverStep taskGraphModel {} rootCreateEvent =
      Except.error
        (SimError.typeError "missing 1 required positional argument: init_location") ∧
    generate_chunks taskGraphModel [rootCreateEvent] =
      Except.error
        (SimError.typeError "missing 1 required positional argument: init_location") := by
  exact ⟨rfl, rfl, rfl, rfl⟩

/-- Claim C6 witness: processing the root task-create event against a driver
state with previously emitted records aborts with the TypeError and emits
nothing. -/
theorem C6_witness :
    driverStep taskGraphModel
      { k := 3, num_chunks := 1, processed := [], chunkOps := [],
        taskMeta := [(5, some 1, "t5")], taskActions := [], suspendMetaRecs := [] }
      rootCreateEvent =
      Except.error
        (SimError.typeError "missing 1 required positional argument: init_location") := by
  exact (C6_thm rootCreateEvent
    { k := 3, num_chunks := 1, processed := [], chunkOps := [],
      taskMeta := [(5, some 1, "t5")], taskActions := [], suspendMetaRecs := [] }
    rfl rfl).2.2
